import Mathlib

/-!
Verification development for the whatsapp-app repository: a shallow embedding
of its ledger engine (`AccountService`), period closer (`MonthlyCloseJob`),
employee service, and conversation state machine (`ConversationFlow`), with
theorems settling the specification claims.

Conventions of the embedding:
* Machine numbers are `Int`/`Nat` (amounts are integer cents in the source).
* JavaScript `Date` values are modelled by `DateT` below: a calendar month
  (`year`, `month` with January = 0 as in JS) plus `sub`, the instant within
  the month (so `new Date(getFullYear(), getMonth(), 1)` — midnight of the
  first day, the earliest instant of the month — is `sub = 0`).  Date
  comparison is the lexicographic order, mirroring epoch-millisecond order.
* The Prisma store is a `Store` record of entity lists; fallible store writes
  are modelled with explicit failure-injection fields so that partial-failure
  claims can be stated.
* Entity ids are `String`s, as in the source (cuids).
-/

namespace WhatsappApp

/-- Transaction categories, from the Prisma `TransactionType` enum used across
`AccountService` and `ConversationFlow`. -/
inductive TransactionType where
  | PANADERIA
  | CARNICERIA
  | PROVEEDORES
  | ADELANTO
deriving DecidableEq, Repr

/-- A point in time: JS `Date` abstracted to (year, month, instant-in-month).
`sub = 0` is the earliest instant of the month, i.e. `new Date(y, m, 1)`. -/
structure DateT where
  year : Nat
  month : Nat
  sub : Nat
deriving DecidableEq, Repr

/-- Lexicographic order on instants, mirroring epoch-millisecond comparison of
JS `Date` values (Prisma `lte`/`gte`). -/
def DateT.le (a b : DateT) : Bool :=
  decide (a.year < b.year ∨ (a.year = b.year ∧
    (a.month < b.month ∨ (a.month = b.month ∧ a.sub ≤ b.sub))))

theorem DateT.le_refl (a : DateT) : DateT.le a a = true := by
  simp [DateT.le]

theorem DateT.le_total (a b : DateT) :
    DateT.le a b = true ∨ DateT.le b a = true := by
  cases a; cases b
  simp only [DateT.le, decide_eq_true_eq]
  omega

theorem DateT.le_antisymm {a b : DateT}
    (h1 : DateT.le a b = true) (h2 : DateT.le b a = true) : a = b := by
  cases a; cases b
  simp only [DateT.le, decide_eq_true_eq] at h1 h2
  simp only [DateT.mk.injEq]
  omega

theorem DateT.le_trans {a b c : DateT}
    (h1 : DateT.le a b = true) (h2 : DateT.le b c = true) :
    DateT.le a c = true := by
  cases a; cases b; cases c
  simp only [DateT.le, decide_eq_true_eq] at h1 h2 ⊢
  omega

/-- Prisma `EmployeeStatus` enum. -/
inductive EmployeeStatus where
  | ACTIVE
  | INACTIVE
  | SUSPENDED
deriving DecidableEq, Repr

/-- Prisma `Employee` row (`fullName`, `dni`, unique nullable `phoneE164`,
unique `employeeCode`). -/
structure Employee where
  id : String
  fullName : String
  dni : String
  phoneE164 : Option String
  employeeCode : String
  status : EmployeeStatus := .ACTIVE
deriving DecidableEq, Repr

/-- Prisma `Account` row: 1:1 with an employee, carries `closingDay` and the
nullable `lastClosingAt`. -/
structure Account where
  id : String
  employeeId : String
  closingDay : Nat
  lastClosingAt : Option DateT
deriving DecidableEq, Repr

/-- Prisma `Transaction` row. Amounts are integer cents (`amountCents`). -/
structure Transaction where
  accountId : String
  ttype : TransactionType
  amountCents : Int
  postedAt : DateT
  description : String
deriving DecidableEq, Repr

/-- Prisma `Statement` row: a closing snapshot. -/
structure Statement where
  id : String
  accountId : String
  periodStart : DateT
  periodEnd : DateT
  closingBalanceCents : Int
  pdfUrl : Option String
deriving DecidableEq, Repr

/-- Prisma `TicketTopic` enum. -/
inductive TicketTopic where
  | DISPUTA
  | CONSULTA
deriving DecidableEq, Repr

/-- Prisma `Ticket` row (status kept as the string the source writes). -/
structure Ticket where
  id : String
  employeeId : String
  topic : TicketTopic
  status : String
  lastMessage : Option String
deriving DecidableEq, Repr

/-- The relational store (the Prisma database), as lists of rows plus id
counters.  `failStatementCreate` injects store-write failures keyed by
account id (the error message the store throws), and `failAccountCreate`
injects a failure of `prisma.account.create` — both model the fallible
store collaborator so that error-handling claims can be stated. -/
structure Store where
  employees : List Employee := []
  accounts : List Account := []
  transactions : List Transaction := []
  statements : List Statement := []
  tickets : List Ticket := []
  nextStatementId : Nat := 0
  nextTicketId : Nat := 0
  nextEmployeeId : Nat := 0
  nextAccountId : Nat := 0
  failStatementCreate : List (String × String) := []
  failAccountCreate : Option String := none
deriving DecidableEq, Repr

/-! ## Ledger engine: `AccountService` -/

/-- The transactions of one account (`prisma.transaction.findMany({where:
{accountId}})`; ordering does not affect any sum). -/
def accountTransactions (s : Store) (accountId : String) : List Transaction :=
  s.transactions.filter (fun t => t.accountId == accountId)

/-- Summing `amountCents` by accumulation, as the source `reduce((sum, t) =>
sum + t.amountCents, 0)` and the Prisma `_sum` aggregate do. -/
def txSum (txs : List Transaction) : Int :=
  txs.foldl (fun acc t => acc + t.amountCents) 0

/-- `AccountService.computeBalance`: Prisma aggregate `_sum(amountCents)` over
the account transactions with `postedAt <= untilDate` when a bound is given,
with `|| 0` turning an empty aggregate into `0`. -/
def computeBalance (s : Store) (accountId : String) (untilDate : Option DateT) : Int :=
  txSum ((accountTransactions s accountId).filter (fun t =>
    match untilDate with
    | some d => DateT.le t.postedAt d
    | none => true))

/-- One step of the source `reduce` building `categoryTotals`:
`totals[t.type] = (totals[t.type] || 0) + t.amountCents` on a record, which
preserves first-insertion key order. -/
def bumpTotal (totals : List (TransactionType × Int)) (ty : TransactionType)
    (amt : Int) : List (TransactionType × Int) :=
  if totals.any (fun p => p.1 == ty) then
    totals.map (fun p => if p.1 == ty then (p.1, p.2 + amt) else p)
  else
    totals ++ [(ty, amt)]

/-- The `categoryTotals` record built in `getPeriodData` (and
`getAccountSummary`), as an association list in insertion order. -/
def categoryTotals (txs : List Transaction) : List (TransactionType × Int) :=
  txs.foldl (fun tot t => bumpTotal tot t.ttype t.amountCents) []

/-- Result of `AccountService.getPeriodData` (`endDate` is the source field
`end`, renamed because `end` is a Lean keyword). -/
structure PeriodData where
  start : DateT
  endDate : DateT
  transactions : List Transaction
  openingBalance : Int
  closingBalance : Int
  categoryTotals : List (TransactionType × Int)
deriving DecidableEq, Repr

/-- The transactions the `getPeriodData` query selects: `postedAt` between
`startDate` and `endDate`, both bounds inclusive (`gte`/`lte`). -/
def periodTransactions (s : Store) (accountId : String)
    (startDate endDate : DateT) : List Transaction :=
  (accountTransactions s accountId).filter (fun t =>
    DateT.le startDate t.postedAt && DateT.le t.postedAt endDate)

/-- `AccountService.getPeriodData`: opening balance is `computeBalance` through
`startDate`, closing balance adds the in-range transaction sum. -/
def getPeriodData (s : Store) (accountId : String)
    (startDate endDate : DateT) : PeriodData :=
  let transactions := periodTransactions s accountId startDate endDate
  let openingBalance := computeBalance s accountId (some startDate)
  { start := startDate
    endDate := endDate
    transactions := transactions
    openingBalance := openingBalance
    closingBalance := openingBalance + txSum transactions
    categoryTotals := categoryTotals transactions }

/-- A period as returned by `AccountService.getOpenPeriod` (`endDate` is the
source field `end`). -/
structure Period where
  start : DateT
  endDate : DateT
deriving DecidableEq, Repr

/-- `new Date(now.getFullYear(), now.getMonth(), 1)`: the earliest instant of
the current calendar month. -/
def firstDayOfMonth (now : DateT) : DateT :=
  { year := now.year, month := now.month, sub := 0 }

/-- `AccountService.getOpenPeriod`: from `lastClosingAt` when set, else from
the first day of the current month, always up to `now`. -/
def getOpenPeriod (account : Account) (now : DateT) : Period :=
  match account.lastClosingAt with
  | some lastClosing => { start := lastClosing, endDate := now }
  | none => { start := firstDayOfMonth now, endDate := now }

/-! ## Ledger lemmas -/

theorem txSum_foldl (ts : List Transaction) (c : Int) :
    ts.foldl (fun acc t => acc + t.amountCents) c = c + txSum ts := by
  induction ts generalizing c with
  | nil => simp [txSum]
  | cons t ts ih =>
    simp only [txSum, List.foldl_cons] at *
    rw [ih, ih (0 + t.amountCents)]
    ring

theorem txSum_cons (t : Transaction) (ts : List Transaction) :
    txSum (t :: ts) = t.amountCents + txSum ts := by
  show List.foldl (fun acc t => acc + t.amountCents) 0 (t :: ts) = _
  rw [List.foldl_cons, txSum_foldl]
  omega

theorem txSum_eq_map_sum (ts : List Transaction) :
    txSum ts = (ts.map (fun t => t.amountCents)).sum := by
  induction ts with
  | nil => simp [txSum]
  | cons t ts ih => rw [txSum_cons, List.map_cons, List.sum_cons, ih]

/-- Splitting an interval sum at an interior bound: provided no transaction is
posted exactly at the instant `s`, the balance through `s` plus the sum over
`[s, e]` is the balance through `e`. -/
theorem txSum_split (txs : List Transaction) (s e : DateT)
    (hse : DateT.le s e = true)
    (hno : ∀ t ∈ txs, t.postedAt ≠ s) :
    txSum (txs.filter (fun t => DateT.le t.postedAt s)) +
      txSum (txs.filter (fun t => DateT.le s t.postedAt && DateT.le t.postedAt e)) =
      txSum (txs.filter (fun t => DateT.le t.postedAt e)) := by
  induction txs with
  | nil => simp [txSum]
  | cons t ts ih =>
    have hne : t.postedAt ≠ s := hno t (by simp)
    have hrest : ∀ u ∈ ts, u.postedAt ≠ s := fun u hu => hno u (by simp [hu])
    have H := ih hrest
    by_cases h1 : DateT.le t.postedAt s = true
    · have h2 : DateT.le s t.postedAt = false := by
        by_contra hc
        exact hne (DateT.le_antisymm h1 (by revert hc; cases DateT.le s t.postedAt <;> simp))
      have h3 : DateT.le t.postedAt e = true := DateT.le_trans h1 hse
      simp only [List.filter_cons, h1, h2, h3, Bool.false_and, if_true, if_false,
        Bool.false_eq_true, txSum_cons]
      omega
    · have h1f : DateT.le t.postedAt s = false := by
        revert h1; cases DateT.le t.postedAt s <;> simp
      have h2 : DateT.le s t.postedAt = true := by
        rcases DateT.le_total t.postedAt s with h | h
        · exact absurd h h1
        · exact h
      by_cases h3 : DateT.le t.postedAt e = true
      · simp only [List.filter_cons, h1f, h2, h3, Bool.true_and, if_true, if_false,
          Bool.false_eq_true, txSum_cons]
        omega
      · have h3f : DateT.le t.postedAt e = false := by
          revert h3; cases DateT.le t.postedAt e <;> simp
        simp only [List.filter_cons, h1f, h2, h3f, Bool.true_and, if_false,
          Bool.false_eq_true]
        exact H

/-! ## Claim C1 -/

/-- A store holding a single transaction posted exactly at an instant that is
then used as the period start. -/
def c1Store : Store :=
  { transactions := [{ accountId := "acc-1", ttype := .PANADERIA,
                       amountCents := 100, postedAt := ⟨2025, 0, 5⟩,
                       description := "pan" }] }

/-- C1 (counterexample): with one transaction of 100 cents posted exactly at
the instant used as both period start and period end, `getPeriodData` reports
a closing balance of 200 (the transaction enters both the opening balance,
`postedAt <= start`, and the in-range sum, `postedAt >= start`), while
`computeBalance` through the period end is 100 — so the claimed equality fails
when a transaction is posted exactly at the start instant. -/
theorem c1_counterexample :
    ¬ ((getPeriodData c1Store "acc-1" ⟨2025, 0, 5⟩ ⟨2025, 0, 5⟩).closingBalance
        = computeBalance c1Store "acc-1" (some ⟨2025, 0, 5⟩)) := by
  decide

/-- C1 (amended): for `start <= end`, the closing balance returned by
`getPeriodData` equals the all-time balance through the period end
`computeBalance(accountId, end)` — provided no transaction of the account is
posted exactly at the start instant (such a transaction is double counted by
the source, once in the opening balance and once in the period sum). -/
theorem c1_closingBalance_eq_computeBalance (s : Store) (accountId : String)
    (sd ed : DateT) (hse : DateT.le sd ed = true)
    (hno : ∀ t ∈ accountTransactions s accountId, t.postedAt ≠ sd) :
    (getPeriodData s accountId sd ed).closingBalance
      = computeBalance s accountId (some ed) := by
  show computeBalance s accountId (some sd)
      + txSum (periodTransactions s accountId sd ed)
      = computeBalance s accountId (some ed)
  unfold computeBalance periodTransactions
  exact txSum_split (accountTransactions s accountId) sd ed hse hno

/-- C1 (witness): the amended theorem applied to a concrete store whose only
transaction lies strictly inside the period. -/
theorem c1_witness :
    (getPeriodData
        { transactions := [{ accountId := "acc-1", ttype := .PANADERIA,
                             amountCents := 100, postedAt := ⟨2025, 0, 5⟩,
                             description := "pan" }] }
        "acc-1" ⟨2025, 0, 1⟩ ⟨2025, 0, 9⟩).closingBalance
      = computeBalance
          { transactions := [{ accountId := "acc-1", ttype := .PANADERIA,
                               amountCents := 100, postedAt := ⟨2025, 0, 5⟩,
                               description := "pan" }] }
          "acc-1" (some ⟨2025, 0, 9⟩) := by
  exact c1_closingBalance_eq_computeBalance _ "acc-1" _ _ (by decide)
    (by decide)

/-! ## Claim C6 -/

/-- The specification's description of `computeBalance`: the exact integer sum
of `amountCents` over the transactions with `postedAt <= asOfDate` (all of
them when the bound is omitted).  Defined from the spec text, to be compared
with the source translation `computeBalance`. -/
def computeBalance_specification (txs : List Transaction)
    (asOfDate : Option DateT) : Int :=
  ((txs.filter (fun t =>
      match asOfDate with
      | some d => DateT.le t.postedAt d
      | none => true)).map (fun t => t.amountCents)).sum

/-- C6: `computeBalance` returns the exact integer sum of `amountCents` over
the account's transactions with `postedAt <= asOfDate` (all transactions when
the bound is omitted), and on an empty transaction set it returns 0 with
`getPeriodData`'s `categoryTotals` the empty mapping — never an error. -/
theorem c6_computeBalance_exact (s : Store) (accountId : String)
    (d : Option DateT) :
    computeBalance s accountId d
        = computeBalance_specification (accountTransactions s accountId) d
    ∧ (accountTransactions s accountId = [] →
        computeBalance s accountId d = 0
        ∧ ∀ a b : DateT, (getPeriodData s accountId a b).categoryTotals = []) := by
  constructor
  · unfold computeBalance computeBalance_specification
    exact txSum_eq_map_sum _
  · intro hempty
    constructor
    · unfold computeBalance
      rw [hempty]
      simp [txSum]
    · intro a b
      show categoryTotals (periodTransactions s accountId a b) = []
      unfold periodTransactions
      rw [hempty]
      simp [categoryTotals]

/-- C6 (witness): the theorem applied to a store with no transactions. -/
theorem c6_witness :
    computeBalance { } "acc-1" none = 0
    ∧ (getPeriodData { } "acc-1" ⟨2025, 0, 0⟩ ⟨2025, 0, 9⟩).categoryTotals = [] := by
  have h := (c6_computeBalance_exact { } "acc-1" none).2 (by decide)
  exact ⟨h.1, h.2 ⟨2025, 0, 0⟩ ⟨2025, 0, 9⟩⟩

/-! ## Claim C8 -/

/-- The specification's description of the open period: `[lastClosingAt, now)`
when `lastClosingAt` is set, else `[firstDayOfCurrentCalendarMonth, now)`.
Defined from the spec text, to be compared with the source translation
`getOpenPeriod`. -/
def openPeriod_specification (account : Account) (now : DateT) : Period :=
  match account.lastClosingAt with
  | some lastClosing => { start := lastClosing, endDate := now }
  | none => { start := { year := now.year, month := now.month, sub := 0 }, endDate := now }

/-- C8: for every account, the open period starts at `lastClosingAt` when that
is set and at the first day of the current calendar month otherwise, and it
always extends exactly to `now` (no fixed end until explicitly closed). -/
theorem c8_openPeriod (account : Account) (now : DateT) :
    getOpenPeriod account now = openPeriod_specification account now
    ∧ (getOpenPeriod account now).endDate = now := by
  cases h : account.lastClosingAt <;>
    simp [getOpenPeriod, openPeriod_specification, firstDayOfMonth, h]

/-! ## `EmployeeService.createEmployee` -/

/-- Argument of `EmployeeService.createEmployee` (`status` is optional and
defaults to `ACTIVE` via `data.status || EmployeeStatus.ACTIVE`). -/
structure CreateEmployeeData where
  fullName : String
  dni : String
  phoneE164 : String
  employeeCode : String
  status : Option EmployeeStatus := none
deriving DecidableEq, Repr

instance instDecEqExcept {ε α : Type} [DecidableEq ε] [DecidableEq α] :
    DecidableEq (Except ε α)
  | .ok x, .ok y =>
    if h : x = y then .isTrue (by rw [h]) else .isFalse (fun hc => h (Except.ok.inj hc))
  | .error x, .error y =>
    if h : x = y then .isTrue (by rw [h]) else .isFalse (fun hc => h (Except.error.inj hc))
  | .ok _, .error _ => .isFalse (fun hc => Except.noConfusion hc)
  | .error _, .ok _ => .isFalse (fun hc => Except.noConfusion hc)

/-- Outcome of `createEmployee`: the store after the call, together with the
returned employee or the propagated thrown error. -/
structure CreateEmployeeResult where
  store : Store
  result : Except String Employee
deriving DecidableEq, Repr

/-- The employee row `prisma.employee.create` writes. -/
def newEmployeeRow (s : Store) (data : CreateEmployeeData) : Employee :=
  { id := "emp-" ++ toString s.nextEmployeeId
    fullName := data.fullName
    dni := data.dni
    phoneE164 := some data.phoneE164
    employeeCode := data.employeeCode
    status := data.status.getD .ACTIVE }

/-- The account row `prisma.account.create` writes right after, with the
hard-coded `closingDay: 20`. -/
def newAccountRow (s : Store) (data : CreateEmployeeData) : Account :=
  { id := "acc-" ++ toString s.nextAccountId
    employeeId := (newEmployeeRow s data).id
    closingDay := 20
    lastClosingAt := none }

/-- `EmployeeService.createEmployee`: `prisma.employee.create` followed by a
separate `prisma.account.create` with `closingDay: 20`; the two writes are
sequential, not wrapped in a transaction, so a failing account create (the
`failAccountCreate` injection) throws after the employee row is already
persisted. -/
def createEmployee (s : Store) (data : CreateEmployeeData) : CreateEmployeeResult :=
  let emp := newEmployeeRow s data
  let s1 : Store := { s with employees := s.employees ++ [emp],
                             nextEmployeeId := s.nextEmployeeId + 1 }
  match s.failAccountCreate with
  | some msg => { store := s1, result := .error msg }
  | none =>
    { store := { s1 with accounts := s1.accounts ++ [newAccountRow s data],
                         nextAccountId := s.nextAccountId + 1 }
      result := .ok emp }

/-! ## Claim C9 -/

/-- C9 (counterexample): with an injected failure of `prisma.account.create`,
`createEmployee` throws — yet the holder row persists (the employees list is
no longer empty), because the two creates are not atomic; the claim says no
holder record remains. -/
theorem c9_counterexample :
    (createEmployee { failAccountCreate := some "db down" }
        { fullName := "Juan Perez", dni := "20300123",
          phoneE164 := "+5491123456789", employeeCode := "E001" }).result
      = .error "db down"
    ∧ (createEmployee { failAccountCreate := some "db down" }
        { fullName := "Juan Perez", dni := "20300123",
          phoneE164 := "+5491123456789", employeeCode := "E001" }).store.employees
        ≠ [] := by
  decide

/-- C9 (amended): when account creation succeeds, the holder and its 1:1
account (with `closingDay` defaulting to 20) are both created; but the pair
is not atomic — when account creation fails, the error propagates and the
already-persisted holder record remains, with no account. -/
theorem c9_createEmployee (s : Store) (data : CreateEmployeeData) :
    (s.failAccountCreate = none →
      ∃ emp acc,
        (createEmployee s data).result = .ok emp
        ∧ (createEmployee s data).store.employees = s.employees ++ [emp]
        ∧ (createEmployee s data).store.accounts = s.accounts ++ [acc]
        ∧ acc.employeeId = emp.id
        ∧ acc.closingDay = 20
        ∧ acc.lastClosingAt = none)
    ∧ (∀ msg, s.failAccountCreate = some msg →
        ∃ emp,
          (createEmployee s data).result = .error msg
          ∧ (createEmployee s data).store.employees = s.employees ++ [emp]
          ∧ emp.dni = data.dni
          ∧ (createEmployee s data).store.accounts = s.accounts) := by
  constructor
  · intro h
    refine ⟨newEmployeeRow s data, newAccountRow s data, ?_, ?_, ?_, rfl, rfl, rfl⟩ <;>
      simp [createEmployee, h]
  · intro msg h
    refine ⟨newEmployeeRow s data, ?_, ?_, rfl, ?_⟩ <;> simp [createEmployee, h]

/-- An empty store (all-default fields). -/
def emptyStore : Store := {}

/-- A store whose `prisma.account.create` is set to fail. -/
def c9FailStore : Store := { failAccountCreate := some "db down" }

/-- Sample `createEmployee` argument. -/
def c9Data : CreateEmployeeData :=
  { fullName := "Ana Lopez", dni := "27111222",
    phoneE164 := "+5491198765432", employeeCode := "E002" }

/-- C9 (witness): the amended theorem applied to one store where account
creation succeeds and one where it fails. -/
theorem c9_witness :
    (∃ emp acc,
      (createEmployee emptyStore c9Data).result = .ok emp
      ∧ (createEmployee emptyStore c9Data).store.employees = emptyStore.employees ++ [emp]
      ∧ (createEmployee emptyStore c9Data).store.accounts = emptyStore.accounts ++ [acc]
      ∧ acc.employeeId = emp.id
      ∧ acc.closingDay = 20
      ∧ acc.lastClosingAt = none)
    ∧ (∃ emp,
      (createEmployee c9FailStore c9Data).result = .error "db down"
      ∧ (createEmployee c9FailStore c9Data).store.employees
          = c9FailStore.employees ++ [emp]
      ∧ emp.dni = c9Data.dni
      ∧ (createEmployee c9FailStore c9Data).store.accounts = c9FailStore.accounts) :=
  ⟨(c9_createEmployee emptyStore c9Data).1 rfl,
   (c9_createEmployee c9FailStore c9Data).2 "db down" rfl⟩

/-! ## Period closer: `MonthlyCloseJob` -/

/-- `prisma.account.findUnique({where: {id}})`. -/
def findAccount (s : Store) (accountId : String) : Option Account :=
  s.accounts.find? (fun a => a.id == accountId)

/-- A day rendered as `toISOString().split(T)[0]` is; the exact digits of the
rendering are irrelevant to every claim, only that a URL string is attached. -/
def isoDay (d : DateT) : String :=
  toString d.year ++ "-" ++ toString (d.month + 1) ++ "-" ++ toString d.sub

/-- The public URL `PDFGenerator.generateStatementPDF` returns:
`/storage/statements/<employeeCode>-<periodEnd date>.pdf`. -/
def generatedPdfUrl (employeeCode : String) (periodEnd : DateT) : String :=
  "/storage/statements/" ++ employeeCode ++ "-" ++ isoDay periodEnd ++ ".pdf"

/-- `MonthlyCloseJob.closeAccount`: look up the account (throwing `not found`
otherwise), compute the open period and the period data through
`closingDate`, create a statement with `closingBalanceCents =
periodData.closingBalance` (the write fails when the store injects a failure
for this account, before anything is written), attach the generated PDF URL,
and set `lastClosingAt := closingDate`.  The optional closing notification
only talks to the outbound transport, swallows its own errors and never
touches the store or the outcome, so it is not part of the state model. -/
def closeAccount (s : Store) (accountId : String)
    (closingDate now : DateT) : Except String Store :=
  match findAccount s accountId with
  | none => .error ("Account " ++ accountId ++ " not found")
  | some account =>
    let openPeriod := getOpenPeriod account now
    let periodData := getPeriodData s accountId openPeriod.start closingDate
    match s.failStatementCreate.find? (fun p => p.1 == accountId) with
    | some p => .error p.2
    | none =>
      let stId := "st-" ++ toString s.nextStatementId
      let employeeCode :=
        ((s.employees.find? (fun e => e.id == account.employeeId)).map
          (fun e => e.employeeCode)).getD ""
      let statement : Statement :=
        { id := stId
          accountId := accountId
          periodStart := periodData.start
          periodEnd := periodData.endDate
          closingBalanceCents := periodData.closingBalance
          pdfUrl := some (generatedPdfUrl employeeCode periodData.endDate) }
      .ok { s with
        statements := s.statements ++ [statement]
        nextStatementId := s.nextStatementId + 1
        accounts := s.accounts.map (fun a =>
          if a.id == accountId then { a with lastClosingAt := some closingDate } else a) }

/-- `MonthlyCloseJob.closeAllAccounts`: fetch every account, close each one
independently (`Promise.allSettled`, determinised as a left fold), count the
fulfilled closes and collect each rejected close's reason; nothing is thrown
for a per-account failure and nothing is returned to the caller — the tally
and the reasons are only logged, which is what the `Nat × List String`
component records. -/
def closeAllAccounts (s : Store) (closingDate now : DateT) :
    Store × Nat × List String :=
  (s.accounts.map (fun a => a.id)).foldl (fun acc aid =>
    match closeAccount acc.1 aid closingDate now with
    | .ok s2 => (s2, acc.2.1 + 1, acc.2.2)
    | .error e => (acc.1, acc.2.1, acc.2.2 ++ [e])) (s, 0, [])

theorem findAccount_after_update (l : List Account) (aid : String) (d : DateT) :
    (l.map (fun a =>
        if a.id == aid then { a with lastClosingAt := some d } else a)).find?
        (fun a => a.id == aid)
      = (l.find? (fun a => a.id == aid)).map
          (fun a => { a with lastClosingAt := some d }) := by
  induction l with
  | nil => simp
  | cons a l ih =>
    by_cases h : a.id == aid
    · simp [List.find?, h]
    · simp only [List.map_cons, List.find?]
      rw [if_neg (by simp [h])]
      simp only [h]
      exact ih

theorem closeAccount_ok_accounts_length (s : Store) (accountId : String)
    (closingDate now : DateT) (s2 : Store)
    (h : closeAccount s accountId closingDate now = .ok s2) :
    s2.accounts.length = s.accounts.length := by
  unfold closeAccount at h
  cases hacc : findAccount s accountId with
  | none => rw [hacc] at h; exact absurd h (by simp)
  | some account =>
    rw [hacc] at h
    cases hfail : s.failStatementCreate.find? (fun p => p.1 == accountId) with
    | some p => rw [hfail] at h; exact absurd h (by simp)
    | none =>
      rw [hfail] at h
      simp only [Except.ok.injEq] at h
      subst h
      simp

/-- The statement row a successful `closeAccount` creates (shape taken from
the body of `MonthlyCloseJob.closeAccount`). -/
def closeAccountStatement (s : Store) (accountId : String) (account : Account)
    (closingDate now : DateT) : Statement :=
  let periodData := getPeriodData s accountId (getOpenPeriod account now).start closingDate
  { id := "st-" ++ toString s.nextStatementId
    accountId := accountId
    periodStart := periodData.start
    periodEnd := periodData.endDate
    closingBalanceCents := periodData.closingBalance
    pdfUrl := some (generatedPdfUrl
      (((s.employees.find? (fun e => e.id == account.employeeId)).map
        (fun e => e.employeeCode)).getD "")
      periodData.endDate) }

/-- The store a successful `closeAccount` leaves behind. -/
def closeAccountStore (s : Store) (accountId : String) (account : Account)
    (closingDate now : DateT) : Store :=
  { s with
    statements := s.statements ++ [closeAccountStatement s accountId account closingDate now]
    nextStatementId := s.nextStatementId + 1
    accounts := s.accounts.map (fun a =>
      if a.id == accountId then { a with lastClosingAt := some closingDate } else a) }

theorem closeAccount_ok_eq (s : Store) (accountId : String) (account : Account)
    (closingDate now : DateT)
    (hacc : findAccount s accountId = some account)
    (hok : s.failStatementCreate.find? (fun p => p.1 == accountId) = none) :
    closeAccount s accountId closingDate now
      = .ok (closeAccountStore s accountId account closingDate now) := by
  unfold closeAccount closeAccountStore closeAccountStatement
  rw [hacc, hok]

theorem closeAccountStore_find (s : Store) (accountId : String) (account : Account)
    (closingDate now : DateT)
    (hacc : findAccount s accountId = some account) :
    findAccount (closeAccountStore s accountId account closingDate now) accountId
      = some { account with lastClosingAt := some closingDate } := by
  show (s.accounts.map (fun a =>
      if a.id == accountId then { a with lastClosingAt := some closingDate }
      else a)).find? (fun a => a.id == accountId) = _
  rw [findAccount_after_update]
  unfold findAccount at hacc
  rw [hacc]
  rfl

/-! ## Claim C4 -/

/-- C4: closing an existing account (with no injected store failure) appends
exactly one new statement whose closing balance is the period data's closing
balance over the open period through `closingDate`, attaches a document URL,
and sets the account's `lastClosingAt` to `closingDate`; closing a second
time with the same `closingDate` succeeds again and leaves two appended
statements — duplicates are not deduplicated. -/
theorem c4_closeAccount (s : Store) (accountId : String) (account : Account)
    (closingDate now now2 : DateT)
    (hacc : findAccount s accountId = some account)
    (hok : s.failStatementCreate.find? (fun p => p.1 == accountId) = none) :
    ∃ s1 st,
      closeAccount s accountId closingDate now = .ok s1
      ∧ s1.statements = s.statements ++ [st]
      ∧ st.closingBalanceCents
          = (getPeriodData s accountId (getOpenPeriod account now).start
              closingDate).closingBalance
      ∧ st.periodStart = (getOpenPeriod account now).start
      ∧ st.periodEnd = closingDate
      ∧ st.pdfUrl.isSome = true
      ∧ findAccount s1 accountId = some { account with lastClosingAt := some closingDate }
      ∧ ∃ s2, closeAccount s1 accountId closingDate now2 = .ok s2
          ∧ s2.statements.length = s.statements.length + 2 := by
  have hs1 := closeAccount_ok_eq s accountId account closingDate now hacc hok
  have hfind1 := closeAccountStore_find s accountId account closingDate now hacc
  have hok1 : (closeAccountStore s accountId account closingDate
      now).failStatementCreate.find? (fun p => p.1 == accountId) = none := hok
  have hs2 := closeAccount_ok_eq (closeAccountStore s accountId account closingDate now)
    accountId { account with lastClosingAt := some closingDate } closingDate now2
    hfind1 hok1
  refine ⟨_, _, hs1, rfl, rfl, rfl, rfl, rfl, hfind1, _, hs2, ?_⟩
  show ((closeAccountStore s accountId account closingDate now).statements
      ++ [_]).length = s.statements.length + 2
  show ((s.statements ++ [_]) ++ [_]).length = s.statements.length + 2
  simp

/-- C4 (witness): closing a concrete one-account store twice. -/
theorem c4_witness : ∃ s1 st,
    closeAccount
      { accounts := [{ id := "acc-1", employeeId := "emp-1", closingDay := 20,
                       lastClosingAt := none }] }
      "acc-1" ⟨2025, 0, 31⟩ ⟨2025, 0, 31⟩ = .ok s1
    ∧ s1.statements = [] ++ [st]
    ∧ st.closingBalanceCents
        = (getPeriodData
            { accounts := [{ id := "acc-1", employeeId := "emp-1", closingDay := 20,
                             lastClosingAt := none }] }
            "acc-1"
            (getOpenPeriod { id := "acc-1", employeeId := "emp-1", closingDay := 20,
                             lastClosingAt := none } ⟨2025, 0, 31⟩).start
            ⟨2025, 0, 31⟩).closingBalance
    ∧ st.periodStart
        = (getOpenPeriod { id := "acc-1", employeeId := "emp-1", closingDay := 20,
                           lastClosingAt := none } ⟨2025, 0, 31⟩).start
    ∧ st.periodEnd = ⟨2025, 0, 31⟩
    ∧ st.pdfUrl.isSome = true
    ∧ findAccount s1 "acc-1"
        = some { id := "acc-1", employeeId := "emp-1", closingDay := 20,
                 lastClosingAt := some ⟨2025, 0, 31⟩ }
    ∧ ∃ s2, closeAccount s1 "acc-1" ⟨2025, 0, 31⟩ ⟨2025, 1, 3⟩ = .ok s2
        ∧ s2.statements.length = List.length ([] : List Statement) + 2 :=
  c4_closeAccount _ "acc-1" _ ⟨2025, 0, 31⟩ ⟨2025, 0, 31⟩ ⟨2025, 1, 3⟩
    (by decide) (by decide)

/-! ## Claim C5 -/

theorem closeAllAccounts_fold_invariant (ids : List String) (s0 : Store)
    (n : Nat) (es : List String) (closingDate now : DateT) :
    (ids.foldl (fun acc aid =>
        match closeAccount acc.1 aid closingDate now with
        | .ok s2 => (s2, acc.2.1 + 1, acc.2.2)
        | .error e => (acc.1, acc.2.1, acc.2.2 ++ [e])) (s0, n, es)).2.1
      + (ids.foldl (fun acc aid =>
        match closeAccount acc.1 aid closingDate now with
        | .ok s2 => (s2, acc.2.1 + 1, acc.2.2)
        | .error e => (acc.1, acc.2.1, acc.2.2 ++ [e])) (s0, n, es)).2.2.length
      = n + es.length + ids.length
    ∧ (ids.foldl (fun acc aid =>
        match closeAccount acc.1 aid closingDate now with
        | .ok s2 => (s2, acc.2.1 + 1, acc.2.2)
        | .error e => (acc.1, acc.2.1, acc.2.2 ++ [e])) (s0, n, es)).1.accounts.length
      = s0.accounts.length := by
  induction ids generalizing s0 n es with
  | nil => simp
  | cons aid ids ih =>
    simp only [List.foldl_cons]
    cases h : closeAccount s0 aid closingDate now with
    | ok s2 =>
      have hlen := closeAccount_ok_accounts_length s0 aid closingDate now s2 h
      have H := ih s2 (n + 1) es
      refine ⟨?_, by rw [H.2, hlen]⟩
      rw [H.1]
      simp only [List.length_cons]
      omega
    | error e =>
      have H := ih s0 n (es ++ [e])
      refine ⟨?_, H.2⟩
      rw [H.1]
      simp only [List.length_append, List.length_cons, List.length_singleton,
        List.length_nil]
      omega

/-- C5 (amended): the bulk close never aborts: it attempts every account, the
fulfilled count plus the collected failure reasons always account for every
account in the store, and no account row is dropped or rolled back by a
failure elsewhere.  (The counterexample shows what the claim overstated: the
collected reason of a failed close is the store's raw error and carries no
account identifier, and the tally is only logged, not returned.) -/
theorem c5_closeAllAccounts_isolation (s : Store) (closingDate now : DateT) :
    (closeAllAccounts s closingDate now).2.1
      + (closeAllAccounts s closingDate now).2.2.length
      = s.accounts.length
    ∧ (closeAllAccounts s closingDate now).1.accounts.length
      = s.accounts.length := by
  unfold closeAllAccounts
  have H := closeAllAccounts_fold_invariant (s.accounts.map (fun a => a.id))
    s 0 [] closingDate now
  simpa using H

/-- Occurrence of a character pattern inside a character list (used to model
the JavaScript `String.prototype.includes`). -/
def subOccurs (pat : List Char) : List Char → Bool
  | [] => pat.isEmpty
  | c :: rest => pat.isPrefixOf (c :: rest) || subOccurs pat rest

/-- JS `s.includes(pat)`, executable in the kernel. -/
def strIncludes (s pat : String) : Bool :=
  subOccurs pat.data s.data

/-- The C5 scenario from the spec: three accounts, and the store is set to
fail the statement write of the second one with a reason that does not
mention that account. -/
def c5Store : Store :=
  { accounts :=
      [{ id := "acc-1", employeeId := "emp-1", closingDay := 20, lastClosingAt := none },
       { id := "acc-2", employeeId := "emp-2", closingDay := 20, lastClosingAt := none },
       { id := "acc-3", employeeId := "emp-3", closingDay := 20, lastClosingAt := none }]
    failStatementCreate := [("acc-2", "disk full")] }

/-- C5 (counterexample): over the three accounts, with account `acc-2`'s
statement write failing, the bulk close does report 2 successes and 1
collected failure and accounts 1 and 3 get their `lastClosingAt` updated
(isolation holds) — but the single collected failure reason is the raw store
error `disk full`, which does not name account `acc-2` anywhere (splitting
on the id leaves the string whole), and `closeAllAccounts` returns nothing
to its caller; so the claim's required failure report naming account #2 is
not produced. -/
theorem c5_counterexample :
    (closeAllAccounts c5Store ⟨2025, 0, 31⟩ ⟨2025, 0, 31⟩).2.1 = 2
    ∧ (closeAllAccounts c5Store ⟨2025, 0, 31⟩ ⟨2025, 0, 31⟩).2.2 = ["disk full"]
    ∧ strIncludes "disk full" "acc-2" = false
    ∧ strIncludes "disk full" "2" = false
    ∧ findAccount (closeAllAccounts c5Store ⟨2025, 0, 31⟩ ⟨2025, 0, 31⟩).1 "acc-1"
        = some { id := "acc-1", employeeId := "emp-1", closingDay := 20,
                 lastClosingAt := some ⟨2025, 0, 31⟩ }
    ∧ findAccount (closeAllAccounts c5Store ⟨2025, 0, 31⟩ ⟨2025, 0, 31⟩).1 "acc-3"
        = some { id := "acc-3", employeeId := "emp-3", closingDay := 20,
                 lastClosingAt := some ⟨2025, 0, 31⟩ }
    ∧ findAccount (closeAllAccounts c5Store ⟨2025, 0, 31⟩ ⟨2025, 0, 31⟩).1 "acc-2"
        = some { id := "acc-2", employeeId := "emp-2", closingDay := 20,
                 lastClosingAt := none } := by
  decide

/-! ## String helpers

The JavaScript string operations the conversation flow uses, re-implemented
over character lists so that they evaluate inside the kernel (`String.splitOn`
and friends do not reduce there).  Each mirrors the corresponding JS method. -/

/-- JS `s.startsWith(pat)`. -/
def strStartsWith (s pat : String) : Bool :=
  pat.data.isPrefixOf s.data

/-- JS `s.split(sep)` for a one-character separator, on character lists. -/
def splitOnChar (c : Char) : List Char → List (List Char)
  | [] => [[]]
  | x :: xs =>
    let rest := splitOnChar c xs
    if x == c then [] :: rest
    else
      match rest with
      | [] => [[x]]
      | r :: rs => (x :: r) :: rs

/-- JS `s.split(sep)` for a one-character separator. -/
def strSplitOn (s : String) (c : Char) : List String :=
  (splitOnChar c s.data).map String.mk

/-- JS `s.trim()`. -/
def strTrim (s : String) : String :=
  ⟨((s.data.dropWhile Char.isWhitespace).reverse.dropWhile Char.isWhitespace).reverse⟩

/-- JS `s.toLowerCase()` (ASCII range, which covers every keyword matched). -/
def strToLower (s : String) : String :=
  ⟨s.data.map Char.toLower⟩

/-- First-occurrence replacement on character lists (JS
`String.prototype.replace` with a string pattern replaces only the first
occurrence; every pattern used is non-empty). -/
def replaceFirstAux (pat rep : List Char) : List Char → List Char
  | [] => []
  | c :: rest =>
    if pat.isPrefixOf (c :: rest) then rep ++ (c :: rest).drop pat.length
    else c :: replaceFirstAux pat rep rest

/-- JS `s.replace(pat, rep)` (first occurrence). -/
def strReplace (s pat rep : String) : String :=
  ⟨replaceFirstAux pat.data rep.data s.data⟩

/-- JS `s.slice(-3)`. -/
def lastThree (s : String) : String :=
  ⟨(s.data.reverse.take 3).reverse⟩

/-- The regular expression test `/^\d{7,8}$/` used for DNI validation. -/
def isDniFormat (s : String) : Bool :=
  (s.data.length == 7 || s.data.length == 8) && s.data.all Char.isDigit

/-- JS `[a, b, c].join(sep)` for newline separators. -/
def joinNl : List String → String
  | [] => ""
  | [x] => x
  | x :: xs => x ++ "\n" ++ joinNl xs

/-! ## Copy constants (`WHATSAPP_COPYS` from `copy.ts`)

Literal braces of the source templates are written with their escapes
(`\x7b` and `\x7d`); the strings are byte-identical to the source. -/

namespace Copys

def CONFIRM_IDENTITY : String :=
  "Gracias. ¿Tu nombre completo es \x7b\x7bfullName\x7d\x7d? (DNI *\x7b\x7bdniLast3\x7d\x7d)"

def CONFIRM_YES : String := "Sí, soy yo"

def CONFIRM_NO : String := "No soy yo"

def IDENTITY_CONFIRMED : String :=
  "¡Perfecto! Ya estás registrado. Ahora podés consultar tu cuenta corriente."

def IDENTITY_DENIED : String :=
  "Por favor, contactá a RR. HH. para verificar tus datos."

def MAIN_MENU_TITLE : String := "Tu cuenta corriente"

def MAIN_MENU_BODY : String := "Elegí una opción 👇"

def MENU_SUMMARY : String := "Ver resumen"

def MENU_DETAIL : String := "Detalle por categoría"

def MENU_DISPUTE : String := "Disputar un cargo"

def MENU_HANDOVER : String := "Hablar con RR. HH."

def SUMMARY_HEADER : String := "Resumen de tu cuenta"

def SUMMARY_LAST_CLOSING : String :=
  "• Último cierre: \x7b\x7blastClosingDate\x7d\x7d – Saldo cierre: \x7b\x7bclosingBalance\x7d\x7d"

def SUMMARY_OPEN_PERIOD : String :=
  "• Período abierto: \x7b\x7bperiodStart\x7d\x7d → hoy"

def SUMMARY_CURRENT : String :=
  "Saldo actual estimado: \x7b\x7bcurrentBalance\x7d\x7d"

def CATEGORY_SELECT : String := "Elegí la categoría que querés ver:"

def CATEGORY_PANADERIA : String := "Panadería"

def CATEGORY_CARNICERIA : String := "Carnicería"

def CATEGORY_PROVEEDORES : String := "Proveedores"

def CATEGORY_ADELANTO : String := "Adelantos"

def CATEGORY_DETAIL_HEADER : String :=
  "Movimientos de \x7b\x7bcategory\x7d\x7d:"

def CATEGORY_DETAIL_ITEM : String :=
  "\x7b\x7bdate\x7d\x7d – \x7b\x7bdesc\x7d\x7d – $\x7b\x7bamount\x7d\x7d"

def CATEGORY_DETAIL_TOTAL : String :=
  "Total \x7b\x7bcategory\x7d\x7d: $\x7b\x7btotal\x7d\x7d"

def DISPUTE_REQUEST : String :=
  "Contame brevemente qué movimiento querés disputar (fecha, importe, motivo). Lo derivamos a RR. HH. y te respondemos acá."

def DISPUTE_CONFIRMED : String :=
  "✅ Abrimos el ticket #\x7b\x7bticketId\x7d\x7d. Te vamos a contactar. Si necesitás, escribí \x27hablar\x27 para hablar directamente con RR. HH."

def HANDOVER_MESSAGE : String :=
  "Te estamos derivando con RR. HH.. El asistente deja de responder hasta que el caso se cierre. ¡Gracias!"

def ERROR_GENERAL : String :=
  "Ocurrió un error. Por favor, intentá de nuevo o contactá a RR. HH."

def ERROR_NOT_FOUND : String :=
  "No se encontró información. Verificá que estés registrado o contactá a RR. HH."

def ERROR_INVALID_DNI : String :=
  "El DNI debe tener solo números. Intentá de nuevo."

def ERROR_ALREADY_LINKED : String :=
  "Este empleado ya está vinculado a otro número de WhatsApp. Contactá a RR. HH. para verificar tu acceso."

def STATE_NEW_OR_UNIDENTIFIED : String := "NEW_OR_UNIDENTIFIED"

def STATE_MAIN_MENU : String := "MAIN_MENU"

def STATE_SUMMARY : String := "SUMMARY"

def STATE_DETAIL_BY_CATEGORY : String := "DETAIL_BY_CATEGORY"

def STATE_DISPUTE_CHARGE : String := "DISPUTE_CHARGE"

end Copys

/-- `formatCurrency` renders cents through `Intl.NumberFormat`; the locale
digits are irrelevant to every claim, so the rendering is abstracted by an
injective rendering of the cent amount. -/
def formatCurrency (amountCents : Int) : String :=
  "$ " ++ toString amountCents

/-- `formatDate` renders through `Intl.DateTimeFormat` (es-AR); abstracted
likewise, keeping day-month-year order. -/
def formatDate (d : DateT) : String :=
  toString d.sub ++ "/" ++ toString (d.month + 1) ++ "/" ++ toString d.year

/-! ## Conversation state machine: `ConversationFlow`

Embedded from the source file of the `ConversationFlow` class that carries
the identity-exclusivity checks, the per-phone dispute temp state and the
category-detail menu branches — the version the repository documentation
describes; the repository also contains an older duplicate of the class
without those checks, superseded by this one. -/

/-- An outbound message through `WhatsAppClient` (text / interactive buttons /
interactive list / document); `dest` is the source parameter `to`, a Lean
keyword. -/
inductive OutMsg where
  | text (dest body : String)
  | buttons (dest body : String) (btns : List (String × String))
  | list (dest body : String) (sections : List (String × List (String × String)))
      (header : String)
  | document (dest url filename caption : String)
deriving DecidableEq, Repr

/-- `ConversationFlowTempState.disputeAwaitingByPhone`: the process-wide map
from phone to the pending dispute's `{ employeeId }` bag (the employee id the
source stores may be `undefined`, hence the `Option`). -/
abbrev TempState : Type := List (String × Option String)

/-- `Map.get`. -/
def tempGet (t : TempState) (phone : String) : Option (Option String) :=
  (t.find? (fun p => p.1 == phone)).map (fun p => p.2)

/-- `Map.set`. -/
def tempSet (t : TempState) (phone : String) (eid : Option String) : TempState :=
  if t.any (fun p => p.1 == phone) then
    t.map (fun p => if p.1 == phone then (p.1, eid) else p)
  else
    t ++ [(phone, eid)]

/-- `Map.delete`. -/
def tempClear (t : TempState) (phone : String) : TempState :=
  t.filter (fun p => p.1 != phone)

/-- What one handler leaves behind: the store, the temp state, the outbound
messages sent so far, and whether an infrastructure error escaped to
`handleMessage`'s catch (`thrown`). -/
structure FlowOut where
  store : Store
  temp : TempState
  msgs : List OutMsg
  thrown : Bool := false
deriving DecidableEq

/-- Which `case` of the `processMessage` switch dispatched the event. -/
inductive FlowBranch where
  | newUser
  | mainMenu
  | summary
  | detailByCategory
  | disputeCharge
  | fallback
deriving DecidableEq, Repr

/-- `processMessage`/`handleMessage` outcome: a `FlowOut` plus the dispatched
branch. -/
structure ProcessOut where
  store : Store
  temp : TempState
  msgs : List OutMsg
  thrown : Bool
  branch : FlowBranch
deriving DecidableEq

/-- `prisma.employee.findUnique({where: {phoneE164}})`. -/
def findEmployeeByPhone (s : Store) (phone : String) : Option Employee :=
  s.employees.find? (fun e => e.phoneE164 == some phone)

/-- `prisma.employee.findUnique({where: {id}})`. -/
def findEmployeeById (s : Store) (id : String) : Option Employee :=
  s.employees.find? (fun e => e.id == id)

/-- `prisma.employee.findUnique({where: {dni}})`. -/
def findEmployeeByDni (s : Store) (dni : String) : Option Employee :=
  s.employees.find? (fun e => e.dni == dni)

/-- Modelled from the spec: the Prisma schema file is not under `src/`, and
`phoneE164` must be a unique column there (the code calls
`findUnique({where: {phoneE164}})`, which Prisma only allows on unique
fields, and the spec states the channel address is unique across holders).
So `prisma.employee.update({data: {phoneE164}})` throws a unique-constraint
error when another employee already holds the phone, and otherwise rewrites
the row. -/
def updateEmployeePhone (s : Store) (employeeId phone : String) :
    Except String Store :=
  if s.employees.any (fun e => e.id != employeeId && e.phoneE164 == some phone) then
    .error "Unique constraint failed on the fields: (phoneE164)"
  else
    .ok { s with employees := s.employees.map (fun e =>
      if e.id == employeeId then { e with phoneE164 := some phone } else e) }

/-- `prisma.ticket.create`: the row (with the schema's default status
`ABIERTO` when none is given) and the store after the append. -/
def createTicketRow (s : Store) (employeeId : String) (topic : TicketTopic)
    (status : String) (lastMessage : Option String) : Ticket × Store :=
  let t : Ticket :=
    { id := "ticket-" ++ toString s.nextTicketId
      employeeId := employeeId
      topic := topic
      status := status
      lastMessage := lastMessage }
  (t, { s with tickets := s.tickets ++ [t], nextTicketId := s.nextTicketId + 1 })

/-- The sections of the main-menu list message (`showMainMenu`). -/
def mainMenuSections : List (String × List (String × String)) :=
  [("Opciones",
    [("MENU_SUMMARY", Copys.MENU_SUMMARY),
     ("MENU_DETAIL", Copys.MENU_DETAIL),
     ("MENU_DISPUTE", Copys.MENU_DISPUTE),
     ("MENU_HANDOVER", Copys.MENU_HANDOVER)])]

/-- `ConversationFlow.showMainMenu`: one list message. -/
def showMainMenuMsg (phone : String) : OutMsg :=
  .list phone Copys.MAIN_MENU_BODY mainMenuSections Copys.MAIN_MENU_TITLE

/-- `orderBy: { periodEnd: desc }, take: 1` — a statement with maximal
`periodEnd` (ties resolved to the earlier row; the database order on equal
keys is unspecified). -/
def latestStatement (s : Store) (accountId : String) : Option Statement :=
  (s.statements.filter (fun st => st.accountId == accountId)).foldl
    (fun best st =>
      match best with
      | none => some st
      | some b => if DateT.le st.periodEnd b.periodEnd then some b else some st)
    none

/-- `ConversationFlow.showSummary` (the version without the month filter: it
includes every transaction of the account). -/
def showSummary (s : Store) (temp : TempState) (phone : String)
    (employeeId : Option String) (now : DateT) : FlowOut :=
  match s.accounts.find? (fun a => some a.employeeId == employeeId) with
  | none => { store := s, temp := temp, msgs := [.text phone Copys.ERROR_NOT_FOUND] }
  | some account =>
    let currentBalance := txSum (accountTransactions s account.id)
    let closingLine :=
      match latestStatement s account.id with
      | some last =>
        strReplace (strReplace Copys.SUMMARY_LAST_CLOSING
            "\x7b\x7blastClosingDate\x7d\x7d" (formatDate last.periodEnd))
          "\x7b\x7bclosingBalance\x7d\x7d" (formatCurrency last.closingBalanceCents)
          ++ "\n"
      | none => ""
    let summaryText :=
      Copys.SUMMARY_HEADER ++ "\n\n" ++ closingLine
        ++ strReplace (strReplace Copys.SUMMARY_OPEN_PERIOD
              "\x7b\x7bperiodStart\x7d\x7d" (formatDate (firstDayOfMonth now)))
            "hoy" (formatDate now)
        ++ "\n"
        ++ strReplace Copys.SUMMARY_CURRENT
            "\x7b\x7bcurrentBalance\x7d\x7d" (formatCurrency currentBalance)
    { store := s, temp := temp, msgs := [.text phone summaryText] }

/-- `ConversationFlow.showCategorySelection`: one buttons message. -/
def showCategorySelection (s : Store) (temp : TempState) (phone : String) : FlowOut :=
  { store := s, temp := temp
    msgs := [.buttons phone Copys.CATEGORY_SELECT
      [("CAT_PANADERIA", Copys.CATEGORY_PANADERIA),
       ("CAT_CARNICERIA", Copys.CATEGORY_CARNICERIA),
       ("CAT_PROVEEDORES", Copys.CATEGORY_PROVEEDORES),
       ("CAT_ADELANTO", Copys.CATEGORY_ADELANTO)]] }

/-- The label `WHATSAPP_COPYS.CATEGORY_OPTIONS[category]`. -/
def categoryLabel : TransactionType → String
  | .PANADERIA => Copys.CATEGORY_PANADERIA
  | .CARNICERIA => Copys.CATEGORY_CARNICERIA
  | .PROVEEDORES => Copys.CATEGORY_PROVEEDORES
  | .ADELANTO => Copys.CATEGORY_ADELANTO

/-- Descending insertion by `postedAt` (`orderBy: { postedAt: desc }`; the
database order on equal keys is unspecified, this keeps the earlier row
first). -/
def insertDesc (t : Transaction) : List Transaction → List Transaction
  | [] => [t]
  | x :: xs =>
    if DateT.le x.postedAt t.postedAt ∧ x.postedAt ≠ t.postedAt then t :: x :: xs
    else x :: insertDesc t xs

/-- Sort by `postedAt` descending. -/
def sortByPostedDesc (l : List Transaction) : List Transaction :=
  l.foldr insertDesc []

/-- `ConversationFlow.showCategoryDetail`: up to 20 latest transactions of
the employee's account in the category, rendered into one text message (or
the zero-total message when there are none). -/
def showCategoryDetail (s : Store) (temp : TempState) (phone : String)
    (employeeId : Option String) (category : TransactionType) : FlowOut :=
  match (sortByPostedDesc (s.transactions.filter (fun t =>
      t.ttype == category
        && s.accounts.any (fun a => a.id == t.accountId
            && some a.employeeId == employeeId)))).take 20 with
  | [] =>
    { store := s, temp := temp
      msgs := [.text phone
        (strReplace (strReplace Copys.CATEGORY_DETAIL_TOTAL
            "\x7b\x7bcategory\x7d\x7d" (categoryLabel category))
          "\x7b\x7btotal\x7d\x7d" (formatCurrency 0))] }
  | t0 :: trest =>
    let transactions := t0 :: trest
    let header := strReplace Copys.CATEGORY_DETAIL_HEADER
      "\x7b\x7bcategory\x7d\x7d" (categoryLabel category)
    let lines := transactions.map (fun t =>
      strReplace (strReplace (strReplace Copys.CATEGORY_DETAIL_ITEM
          "\x7b\x7bdate\x7d\x7d" (formatDate t.postedAt))
        "\x7b\x7bdesc\x7d\x7d" (if t.description == "" then "Movimiento" else t.description))
        "\x7b\x7bamount\x7d\x7d" (formatCurrency t.amountCents))
    let total := txSum transactions
    let footer := strReplace (strReplace Copys.CATEGORY_DETAIL_TOTAL
        "\x7b\x7bcategory\x7d\x7d" (categoryLabel category))
      "\x7b\x7btotal\x7d\x7d" (formatCurrency total)
    { store := s, temp := temp
      msgs := [.text phone (joinNl ([header] ++ lines ++ [""] ++ [footer]))] }

/-- `ConversationFlow.startDispute`: remember the pending dispute for this
phone in the temp map and prompt for the description. -/
def startDispute (s : Store) (temp : TempState) (phone : String)
    (employeeId : Option String) : FlowOut :=
  { store := s, temp := tempSet temp phone employeeId
    msgs := [.text phone Copys.DISPUTE_REQUEST] }

/-- `TempState.getDisputeAwaitingText(phone) || { employeeId: data?.employeeId }`:
the pending dispute's employee id, falling back to the event data. -/
def pendingEmployee (temp : TempState) (phone : String)
    (employeeId : Option String) : Option String :=
  match tempGet temp phone with
  | some stored => stored
  | none => employeeId

/-- `ConversationFlow.handleDispute`: recover the pending employee (falling
back to the event data), create the dispute ticket, confirm with its id and
clear the pending entry; a missing employee id degrades to the generic
error. -/
def handleDispute (s : Store) (temp : TempState) (phone text : String)
    (employeeId : Option String) : FlowOut :=
  match pendingEmployee temp phone employeeId with
  | none => { store := s, temp := temp, msgs := [.text phone Copys.ERROR_GENERAL] }
  | some eid =>
    if eid == "" then
      { store := s, temp := temp, msgs := [.text phone Copys.ERROR_GENERAL] }
    else
      let created := createTicketRow s eid .DISPUTA "ABIERTO" (some text)
      { store := created.2
        temp := tempClear temp phone
        msgs := [.text phone (strReplace Copys.DISPUTE_CONFIRMED
          "\x7b\x7bticketId\x7d\x7d" created.1.id)] }

/-- `ConversationFlow.handoverToHR`: open a `CONSULTA` ticket with status
`DERIVADO_RRHH` and send the handover message (the employee id is always
present on this path; an absent one is stored as the empty id). -/
def handoverToHR (s : Store) (temp : TempState) (phone : String)
    (employeeId : Option String) : FlowOut :=
  let created := createTicketRow s (employeeId.getD "") .CONSULTA "DERIVADO_RRHH" none
  { store := created.2, temp := temp, msgs := [.text phone Copys.HANDOVER_MESSAGE] }

/-- `ConversationFlow.handleNewUser`: interactive confirm-yes/no handling,
then the free-text DNI path; binding enforces that the candidate has no
different phone already, and the store enforces phone uniqueness (a violation
is thrown and reaches `handleMessage`'s catch). -/
def handleNewUser (s : Store) (temp : TempState) (phone text msgType : String) :
    FlowOut :=
  if msgType == "interactive" then
    if strStartsWith text "CONFIRM_YES:" then
      match (strSplitOn text ':').get? 1 with
      | none => { store := s, temp := temp, msgs := [.text phone Copys.ERROR_GENERAL] }
      | some employeeId =>
        if employeeId == "" then
          { store := s, temp := temp, msgs := [.text phone Copys.ERROR_GENERAL] }
        else
          match findEmployeeById s employeeId with
          | none =>
            { store := s, temp := temp, msgs := [.text phone Copys.ERROR_NOT_FOUND] }
          | some employee =>
            if (match employee.phoneE164 with
                | some p => p != phone
                | none => false) then
              { store := s, temp := temp
                msgs := [.text phone Copys.ERROR_ALREADY_LINKED] }
            else
              match updateEmployeePhone s employeeId phone with
              | .error _ => { store := s, temp := temp, msgs := [], thrown := true }
              | .ok s2 =>
                { store := s2, temp := temp
                  msgs := [.text phone Copys.IDENTITY_CONFIRMED, showMainMenuMsg phone] }
    else if text == "CONFIRM_NO" then
      { store := s, temp := temp, msgs := [.text phone Copys.IDENTITY_DENIED] }
    else
      { store := s, temp := temp, msgs := [.text phone Copys.ERROR_INVALID_DNI] }
  else
    if !isDniFormat (strTrim text) then
      { store := s, temp := temp, msgs := [.text phone Copys.ERROR_INVALID_DNI] }
    else
      match findEmployeeByDni s (strTrim text) with
      | none => { store := s, temp := temp, msgs := [.text phone Copys.ERROR_NOT_FOUND] }
      | some employee =>
        if (match employee.phoneE164 with
            | some p => p != phone
            | none => false) then
          { store := s, temp := temp, msgs := [.text phone Copys.ERROR_ALREADY_LINKED] }
        else
          let confirmText :=
            strReplace (strReplace Copys.CONFIRM_IDENTITY
                "\x7b\x7bfullName\x7d\x7d" employee.fullName)
              "\x7b\x7bdniLast3\x7d\x7d" (lastThree employee.dni)
          { store := s, temp := temp
            msgs := [.buttons phone confirmText
              [("CONFIRM_YES:" ++ employee.id, Copys.CONFIRM_YES),
               ("CONFIRM_NO", Copys.CONFIRM_NO)]] }

/-- `ConversationFlow.handleMainMenu`: structured menu/category ids first,
else case-insensitive keyword matching, else re-render the menu; the two
category branches send the detail and then the menu again. -/
def handleMainMenu (s : Store) (temp : TempState) (phone text : String)
    (employeeId : Option String) (now : DateT) : FlowOut :=
  if text == "MENU_SUMMARY" || strIncludes (strToLower text) "resumen" then
    showSummary s temp phone employeeId now
  else if text == "MENU_DETAIL" || strIncludes (strToLower text) "detalle" then
    showCategorySelection s temp phone
  else if text == "MENU_DISPUTE" || strIncludes (strToLower text) "disputar" then
    startDispute s temp phone employeeId
  else if text == "MENU_HANDOVER" || strIncludes (strToLower text) "hablar" then
    handoverToHR s temp phone employeeId
  else if text == "CAT_PANADERIA" || strIncludes (strToLower text) "panader" then
    let r := showCategoryDetail s temp phone employeeId .PANADERIA
    { r with msgs := r.msgs ++ [showMainMenuMsg phone] }
  else if text == "CAT_CARNICERIA" || strIncludes (strToLower text) "carnicer" then
    let r := showCategoryDetail s temp phone employeeId .CARNICERIA
    { r with msgs := r.msgs ++ [showMainMenuMsg phone] }
  else if text == "CAT_PROVEEDORES" || strIncludes (strToLower text) "proveedor" then
    let r := showCategoryDetail s temp phone employeeId .PROVEEDORES
    { r with msgs := r.msgs ++ [showMainMenuMsg phone] }
  else if text == "CAT_ADELANTO" || strIncludes (strToLower text) "adelanto" then
    let r := showCategoryDetail s temp phone employeeId .ADELANTO
    { r with msgs := r.msgs ++ [showMainMenuMsg phone] }
  else
    { store := s, temp := temp, msgs := [showMainMenuMsg phone] }

/-- `ConversationState` (the `data` bag reduced to its only key,
`employeeId`). -/
structure ConversationState where
  phoneNumber : String
  state : String
  employeeId : Option String
  lastActivity : DateT
deriving DecidableEq, Repr

/-- `ConversationFlow.getOrCreateConversationState`: re-derive the session
from the store on every event — `MAIN_MENU` with the employee id when the
phone resolves, `NEW_OR_UNIDENTIFIED` otherwise. -/
def getOrCreateConversationState (s : Store) (phone : String) (now : DateT) :
    ConversationState :=
  match findEmployeeByPhone s phone with
  | some employee =>
    { phoneNumber := phone, state := Copys.STATE_MAIN_MENU
      employeeId := some employee.id, lastActivity := now }
  | none =>
    { phoneNumber := phone, state := Copys.STATE_NEW_OR_UNIDENTIFIED
      employeeId := none, lastActivity := now }

/-- `ConversationFlow.processMessage`: the switch over the session state. -/
def processMessage (s : Store) (temp : TempState) (state : ConversationState)
    (text msgType : String) (now : DateT) : ProcessOut :=
  let phone := state.phoneNumber
  let wrap (r : FlowOut) (b : FlowBranch) : ProcessOut :=
    { store := r.store, temp := r.temp, msgs := r.msgs, thrown := r.thrown, branch := b }
  if state.state == Copys.STATE_NEW_OR_UNIDENTIFIED then
    wrap (handleNewUser s temp phone text msgType) .newUser
  else if state.state == Copys.STATE_MAIN_MENU then
    wrap (handleMainMenu s temp phone text state.employeeId now) .mainMenu
  else if state.state == Copys.STATE_SUMMARY then
    wrap (showSummary s temp phone state.employeeId now) .summary
  else if state.state == Copys.STATE_DETAIL_BY_CATEGORY then
    wrap (showCategorySelection s temp phone) .detailByCategory
  else if state.state == Copys.STATE_DISPUTE_CHARGE then
    wrap (handleDispute s temp phone text state.employeeId) .disputeCharge
  else
    wrap { store := s, temp := temp, msgs := [showMainMenuMsg phone] } .fallback

/-- `ConversationFlow.handleMessage`: derive the session, dispatch, and on a
thrown infrastructure error send the generic error message (the messages
already sent before the throw remain sent). -/
def handleMessage (s : Store) (temp : TempState) (phone text msgType : String)
    (now : DateT) : ProcessOut :=
  let st := getOrCreateConversationState s phone now
  let r := processMessage s temp st text msgType now
  if r.thrown then { r with msgs := r.msgs ++ [.text phone Copys.ERROR_GENERAL] }
  else r

/-! ## Claim C10 -/

/-- C10: on every inbound event the re-derived session state is exactly
`MAIN_MENU` when the sender's address resolves to a known holder and
`NEW_OR_UNIDENTIFIED` otherwise, and consequently `handleMessage` only ever
dispatches the `NEW_OR_UNIDENTIFIED` or `MAIN_MENU` branch of
`processMessage` — the `SUMMARY`, `DETAIL_BY_CATEGORY` and `DISPUTE_CHARGE`
branches are never taken. -/
theorem c10_session_rederived (s : Store) (phone : String) (now : DateT) :
    ((getOrCreateConversationState s phone now).state = Copys.STATE_MAIN_MENU
      ∨ (getOrCreateConversationState s phone now).state
          = Copys.STATE_NEW_OR_UNIDENTIFIED)
    ∧ ((getOrCreateConversationState s phone now).state = Copys.STATE_MAIN_MENU
        ↔ (findEmployeeByPhone s phone).isSome = true)
    ∧ ∀ (temp : TempState) (text msgType : String),
        (handleMessage s temp phone text msgType now).branch = FlowBranch.newUser
        ∨ (handleMessage s temp phone text msgType now).branch = FlowBranch.mainMenu := by
  have hne : Copys.STATE_NEW_OR_UNIDENTIFIED ≠ Copys.STATE_MAIN_MENU := by decide
  have hb1 : (Copys.STATE_MAIN_MENU == Copys.STATE_NEW_OR_UNIDENTIFIED) = false := by
    decide
  have hb2 : (Copys.STATE_MAIN_MENU == Copys.STATE_MAIN_MENU) = true := by decide
  have hb3 : (Copys.STATE_NEW_OR_UNIDENTIFIED == Copys.STATE_NEW_OR_UNIDENTIFIED)
      = true := by decide
  refine ⟨?_, ?_, ?_⟩
  · cases h : findEmployeeByPhone s phone <;>
      simp [getOrCreateConversationState, h]
  · cases h : findEmployeeByPhone s phone <;>
      simp [getOrCreateConversationState, h, hne]
  · intro temp text msgType
    cases h : findEmployeeByPhone s phone with
    | none =>
      left
      simp only [handleMessage, processMessage, getOrCreateConversationState, h, hb3,
        if_true]
      split <;> rfl
    | some e =>
      right
      simp only [handleMessage, processMessage, getOrCreateConversationState, h, hb1,
        hb2, if_true, Bool.false_eq_true, if_false]
      split <;> rfl

/-! ## Claim C3 -/

/-- A one-holder store: Juan is bound to the sending address. -/
def c3Store : Store :=
  { employees := [{ id := "emp-1", fullName := "Juan Perez", dni := "20300123",
                    phoneE164 := some "+5491123456789", employeeCode := "E001" }]
    accounts := [{ id := "acc-1", employeeId := "emp-1", closingDay := 20,
                   lastClosingAt := none }] }

/-- The first event: the identified holder asks to dispute. -/
def c3Run1 : ProcessOut :=
  handleMessage c3Store [] "+5491123456789" "disputar" "text" ⟨2025, 0, 10⟩

/-- The next event: the free-text dispute description. -/
def c3Run2 : ProcessOut :=
  handleMessage c3Run1.store c3Run1.temp "+5491123456789" "me cobraron mal"
    "text" ⟨2025, 0, 10⟩

/-- C3: evaluating the dispute flow at the failing input.  The first event
does send the dispute prompt (and records the pending dispute in the temp
map), but the session state is re-derived to `MAIN_MENU` on the next event,
so the free-text description is dispatched to the main-menu handler, which
re-renders the menu: no case is ever created, no confirmation with a case id
is sent, and the `DISPUTE_CHARGE` handler that would create it is
unreachable. -/
theorem c3_dispute_flow_dead :
    c3Run1.msgs = [OutMsg.text "+5491123456789" Copys.DISPUTE_REQUEST]
    ∧ c3Run1.branch = FlowBranch.mainMenu
    ∧ c3Run1.store.tickets = []
    ∧ c3Run1.temp = [("+5491123456789", some "emp-1")]
    ∧ c3Run2.branch = FlowBranch.mainMenu
    ∧ c3Run2.msgs = [showMainMenuMsg "+5491123456789"]
    ∧ c3Run2.store.tickets = [] := by
  decide

/-! ## Claim C2 -/

theorem nodup_filterMap_eq {α β : Type} (f : α → Option β) :
    ∀ (l : List α), (l.filterMap f).Nodup →
      ∀ (a b : α) (v : β), a ∈ l → b ∈ l → f a = some v → f b = some v → a = b := by
  intro l
  induction l with
  | nil =>
    intro _ a b v ha _ _ _
    exact absurd ha (List.not_mem_nil a)
  | cons x xs ih =>
    intro h a b v ha hb hfa hfb
    rw [List.filterMap_cons] at h
    rcases List.mem_cons.mp ha with rfl | ha2
    · rcases List.mem_cons.mp hb with rfl | hb2
      · rfl
      · rw [hfa] at h
        have hv : v ∈ xs.filterMap f := List.mem_filterMap.mpr ⟨b, hb2, hfb⟩
        exact absurd hv (List.nodup_cons.mp h).1
    · rcases List.mem_cons.mp hb with rfl | hb2
      · rw [hfb] at h
        have hv : v ∈ xs.filterMap f := List.mem_filterMap.mpr ⟨a, ha2, hfa⟩
        exact absurd hv (List.nodup_cons.mp h).1
      · refine ih ?_ a b v ha2 hb2 hfa hfb
        cases hfx : f x with
        | none => rw [hfx] at h; exact h
        | some w => rw [hfx] at h; exact (List.nodup_cons.mp h).2

/-- Well-formedness of the employee table as the Prisma schema enforces it:
employee ids are unique and bound phone numbers are unique across holders. -/
def storeWF (s : Store) : Prop :=
  (s.employees.filterMap (fun e => some e.id)).Nodup
  ∧ (s.employees.filterMap (fun e => e.phoneE164)).Nodup

instance (s : Store) : Decidable (storeWF s) := by
  unfold storeWF
  infer_instance

theorem storeWF_unique_id {s : Store} (hwf : storeWF s) {a b : Employee}
    (ha : a ∈ s.employees) (hb : b ∈ s.employees) (hid : a.id = b.id) : a = b :=
  nodup_filterMap_eq (fun e => some e.id) s.employees hwf.1 a b b.id ha hb
    (by simp only []; rw [hid]) rfl

theorem storeWF_unique_phone {s : Store} (hwf : storeWF s) {a b : Employee}
    {p : String} (ha : a ∈ s.employees) (hb : b ∈ s.employees)
    (hpa : a.phoneE164 = some p) (hpb : b.phoneE164 = some p) : a = b :=
  nodup_filterMap_eq (fun e => e.phoneE164) s.employees hwf.2 a b p ha hb hpa hpb

/-- C2 (amended): under the store's uniqueness invariants, a CONFIRM_YES bind
for a candidate holder whose stored address differs from the sender's fails
with the AlreadyLinked message and performs no binding (the store is
unchanged), and re-confirming the holder already bound to the sender's
address succeeds as a strict no-op (the store is unchanged) with the
confirmation and the menu.  What the claim had beyond this fails: binding a
different, unbound holder to an address already bound to another holder is
not answered with AlreadyLinked — the store's uniqueness violation is thrown
and surfaces as the generic error (see the counterexample). -/
theorem c2_bind_exclusive (s : Store) (temp : TempState)
    (phone idStr text : String) (emp : Employee)
    (hwf : storeWF s)
    (hfind : findEmployeeById s idStr = some emp)
    (hstart : strStartsWith text "CONFIRM_YES:" = true)
    (hparse : (strSplitOn text ':').get? 1 = some idStr)
    (hnempty : (idStr == "") = false) :
    (∀ b, emp.phoneE164 = some b → b ≠ phone →
        handleNewUser s temp phone text "interactive"
          = { store := s, temp := temp,
              msgs := [OutMsg.text phone Copys.ERROR_ALREADY_LINKED],
              thrown := false })
    ∧ (emp.phoneE164 = some phone →
        handleNewUser s temp phone text "interactive"
          = { store := s, temp := temp,
              msgs := [OutMsg.text phone Copys.IDENTITY_CONFIRMED,
                       showMainMenuMsg phone],
              thrown := false }) := by
  have hmem : emp ∈ s.employees := List.mem_of_find?_eq_some hfind
  have hid : emp.id = idStr := by
    have := List.find?_some hfind
    exact beq_iff_eq.mp this
  constructor
  · intro b hb hbne
    have hbne2 : (b != phone) = true := bne_iff_ne.mpr hbne
    simp only [handleNewUser, beq_self_eq_true, if_true, hstart, hparse, hnempty,
      Bool.false_eq_true, if_false, hfind, hb, hbne2]
  · intro hphone
    have hany : s.employees.any
        (fun e => e.id != idStr && e.phoneE164 == some phone) = false := by
      rw [Bool.eq_false_iff]
      intro hc
      obtain ⟨e, hemem, hcond⟩ := List.any_eq_true.mp hc
      rw [Bool.and_eq_true] at hcond
      have hephone : e.phoneE164 = some phone := beq_iff_eq.mp hcond.2
      have : e = emp := storeWF_unique_phone hwf hemem hmem hephone hphone
      subst this
      rw [hid] at hcond
      exact absurd rfl (bne_iff_ne.mp hcond.1)
    have hmap : s.employees.map (fun e =>
        if e.id == idStr then { e with phoneE164 := some phone } else e)
        = s.employees := by
      have hpt : ∀ e ∈ s.employees,
          (if e.id == idStr then { e with phoneE164 := some phone } else e) = e := by
        intro e he
        by_cases hc : (e.id == idStr) = true
        · rw [if_pos hc]
          have heq : e = emp :=
            storeWF_unique_id hwf he hmem (by rw [beq_iff_eq.mp hc, hid])
          subst heq
          cases e with
          | mk id fullName dni phoneE164 employeeCode status =>
            simp only at hphone
            rw [hphone]
        · rw [if_neg hc]
      calc s.employees.map (fun e =>
            if e.id == idStr then { e with phoneE164 := some phone } else e)
          = s.employees.map id := List.map_congr_left hpt
        _ = s.employees := List.map_id s.employees
    have hupd : updateEmployeePhone s idStr phone = .ok s := by
      unfold updateEmployeePhone
      rw [hany]
      simp only [Bool.false_eq_true, if_false, hmap]
    simp only [handleNewUser, beq_self_eq_true, if_true, hstart, hparse, hnempty,
      Bool.false_eq_true, if_false, hfind, hphone, hupd, bne_self_eq_false]

/-- Two holders bound to two distinct addresses (a well-formed store). -/
def c2wfStore : Store :=
  { employees :=
      [{ id := "emp-H", fullName := "Juan Perez", dni := "20300123",
         phoneE164 := some "+5491111111111", employeeCode := "E001" },
       { id := "emp-B", fullName := "Carlos Rodriguez", dni := "12345678",
         phoneE164 := some "+5492222222222", employeeCode := "E003" }] }

/-- C2 (witness): the amended theorem applied twice on the concrete store —
confirming `emp-B` (bound to a different address) from Juan's address yields
AlreadyLinked and no change, and re-confirming `emp-H` from its own address
is a no-op success. -/
theorem c2_witness :
    handleNewUser c2wfStore [] "+5491111111111" "CONFIRM_YES:emp-B" "interactive"
      = { store := c2wfStore, temp := [],
          msgs := [OutMsg.text "+5491111111111" Copys.ERROR_ALREADY_LINKED],
          thrown := false }
    ∧ handleNewUser c2wfStore [] "+5491111111111" "CONFIRM_YES:emp-H" "interactive"
      = { store := c2wfStore, temp := [],
          msgs := [OutMsg.text "+5491111111111" Copys.IDENTITY_CONFIRMED,
                   showMainMenuMsg "+5491111111111"],
          thrown := false } :=
  ⟨(c2_bind_exclusive c2wfStore [] "+5491111111111" "emp-B" "CONFIRM_YES:emp-B"
      { id := "emp-B", fullName := "Carlos Rodriguez", dni := "12345678",
        phoneE164 := some "+5492222222222", employeeCode := "E003" }
      (by decide) (by decide) (by decide) (by decide) (by decide)).1
    "+5492222222222" rfl (by decide),
   (c2_bind_exclusive c2wfStore [] "+5491111111111" "emp-H" "CONFIRM_YES:emp-H"
      { id := "emp-H", fullName := "Juan Perez", dni := "20300123",
        phoneE164 := some "+5491111111111", employeeCode := "E001" }
      (by decide) (by decide) (by decide) (by decide) (by decide)).2 rfl⟩

/-- Holder H bound to the sender's address, holder G unbound. -/
def c2Store : Store :=
  { employees :=
      [{ id := "emp-H", fullName := "Juan Perez", dni := "20300123",
         phoneE164 := some "+5491111111111", employeeCode := "E001" },
       { id := "emp-G", fullName := "Ana Lopez", dni := "27111222",
         phoneE164 := none, employeeCode := "E002" }] }

/-- C2 (counterexample): with holder `emp-H` bound to address A, a bind
attempt of the different (unbound) holder `emp-G` to A does not fail with
AlreadyLinked: at the bind itself (`handleNewUser`) the store's uniqueness
violation is thrown with no message of its own (so the outer handler turns
it into the generic error, not the AlreadyLinked one), and through the full
`handleMessage` the event cannot even reach the bind — address A re-derives
to `MAIN_MENU` and the menu is re-rendered, with the store unchanged both
ways. -/
theorem c2_counterexample :
    handleNewUser c2Store [] "+5491111111111" "CONFIRM_YES:emp-G" "interactive"
      = { store := c2Store, temp := [], msgs := [], thrown := true }
    ∧ (handleMessage c2Store [] "+5491111111111" "CONFIRM_YES:emp-G" "interactive"
        ⟨2025, 0, 10⟩).msgs = [showMainMenuMsg "+5491111111111"]
    ∧ (handleMessage c2Store [] "+5491111111111" "CONFIRM_YES:emp-G" "interactive"
        ⟨2025, 0, 10⟩).store = c2Store := by
  decide

/-! ## Claim C7 -/

theorem showSummary_len (s : Store) (temp : TempState) (phone : String)
    (eid : Option String) (now : DateT) :
    (showSummary s temp phone eid now).msgs.length = 1 := by
  unfold showSummary
  split <;> rfl

theorem showSummary_thrown (s : Store) (temp : TempState) (phone : String)
    (eid : Option String) (now : DateT) :
    (showSummary s temp phone eid now).thrown = false := by
  unfold showSummary
  split <;> rfl

theorem showCategoryDetail_len (s : Store) (temp : TempState) (phone : String)
    (eid : Option String) (category : TransactionType) :
    (showCategoryDetail s temp phone eid category).msgs.length = 1 := by
  unfold showCategoryDetail
  split <;> rfl

theorem showCategoryDetail_thrown (s : Store) (temp : TempState) (phone : String)
    (eid : Option String) (category : TransactionType) :
    (showCategoryDetail s temp phone eid category).thrown = false := by
  unfold showCategoryDetail
  split <;> rfl

theorem handleDispute_len (s : Store) (temp : TempState) (phone text : String)
    (eid : Option String) :
    (handleDispute s temp phone text eid).msgs.length = 1
    ∧ (handleDispute s temp phone text eid).thrown = false := by
  unfold handleDispute
  repeat' split
  all_goals exact ⟨rfl, rfl⟩

/-- `handleNewUser` sends no message only on the thrown (update-failure) leaf
and otherwise sends one message, or two on the successful confirm-yes leaf. -/
theorem handleNewUser_count (s : Store) (temp : TempState)
    (phone text msgType : String) :
    ((handleNewUser s temp phone text msgType).thrown = true →
      (handleNewUser s temp phone text msgType).msgs.length = 0)
    ∧ ((handleNewUser s temp phone text msgType).thrown = false →
      1 ≤ (handleNewUser s temp phone text msgType).msgs.length
      ∧ (handleNewUser s temp phone text msgType).msgs.length ≤ 2) := by
  unfold handleNewUser
  repeat' split
  all_goals simp

/-- `handleMainMenu` never throws and sends one message, or two on the
category-detail branches. -/
theorem handleMainMenu_count (s : Store) (temp : TempState) (phone text : String)
    (eid : Option String) (now : DateT) :
    (handleMainMenu s temp phone text eid now).thrown = false
    ∧ 1 ≤ (handleMainMenu s temp phone text eid now).msgs.length
    ∧ (handleMainMenu s temp phone text eid now).msgs.length ≤ 2 := by
  unfold handleMainMenu
  repeat' split
  all_goals
    simp [showSummary_len, showSummary_thrown, showCategoryDetail_len,
      showCategoryDetail_thrown, showCategorySelection, startDispute, handoverToHR,
      handleDispute_len, List.length_append]

/-- C7 (amended): every inbound event produces at least one and at most two
outbound messages — never zero; the successful identity-confirmation and the
category-detail paths produce exactly two (the content followed by the
re-rendered menu, see the counterexample), every other path exactly one. -/
theorem c7_message_bounds (s : Store) (temp : TempState)
    (phone text msgType : String) (now : DateT) :
    1 ≤ (handleMessage s temp phone text msgType now).msgs.length
    ∧ (handleMessage s temp phone text msgType now).msgs.length ≤ 2 := by
  have hb1 : (Copys.STATE_MAIN_MENU == Copys.STATE_NEW_OR_UNIDENTIFIED) = false := by
    decide
  have hb2 : (Copys.STATE_MAIN_MENU == Copys.STATE_MAIN_MENU) = true := by decide
  have hb3 : (Copys.STATE_NEW_OR_UNIDENTIFIED == Copys.STATE_NEW_OR_UNIDENTIFIED)
      = true := by decide
  cases h : findEmployeeByPhone s phone with
  | none =>
    have H := handleNewUser_count s temp phone text msgType
    cases hth : (handleNewUser s temp phone text msgType).thrown with
    | true =>
      have h0 : (handleNewUser s temp phone text msgType).msgs = [] :=
        List.length_eq_zero.mp (H.1 hth)
      simp [handleMessage, processMessage, getOrCreateConversationState, h, hb3,
        hth, h0]
    | false =>
      have hbnd := H.2 hth
      simp only [handleMessage, processMessage, getOrCreateConversationState, h]
      simp only [hb3, if_true]
      simp only [hth, Bool.false_eq_true, if_false]
      exact hbnd
  | some e =>
    have H := handleMainMenu_count s temp phone text (some e.id) now
    simp only [handleMessage, processMessage, getOrCreateConversationState, h]
    simp only [hb1, hb2, if_true, Bool.false_eq_true, if_false]
    simp only [H.1, Bool.false_eq_true, if_false]
    exact H.2

/-- One unbound holder; the sender's address is unbound too. -/
def c7Store : Store :=
  { employees := [{ id := "emp-2", fullName := "Ana Lopez", dni := "27111222",
                    phoneE164 := none, employeeCode := "E002" }] }

/-- C7 (counterexample): the successful identity confirmation (CONFIRM_YES)
produces two outbound messages for the one inbound event — the confirmation
text and the re-rendered main menu — not exactly one as claimed. -/
theorem c7_counterexample :
    ¬ ((handleMessage c7Store [] "+5491198765432" "CONFIRM_YES:emp-2" "interactive"
        ⟨2025, 0, 10⟩).msgs.length = 1)
    ∧ (handleMessage c7Store [] "+5491198765432" "CONFIRM_YES:emp-2" "interactive"
        ⟨2025, 0, 10⟩).msgs
      = [OutMsg.text "+5491198765432" Copys.IDENTITY_CONFIRMED,
         showMainMenuMsg "+5491198765432"] := by
  decide

end WhatsappApp
